import Mathlib

/-
  Verification development for the synology-srm-ha repository.

  Shallow embedding of:
  - custom_components/synology_router/synology_api/wifi_utils.py
      (WiFiConfigManager: profile/radio lookup, availability, mutation,
       network summary)
  - custom_components/synology_router/synology_api/http.py
      (Http.call: JSON envelope processing, common/api error dispatch,
       session-expiry retry)
  - custom_components/synology_router/synology_api/api/wifi.py
      (ApiWifi.set_network_setting argument validation)

  Python dicts are modelled as structures whose fields are the keys the
  code reads or writes; a key that may be absent is an Option field, and
  all keys the code never touches are collected in an opaque-to-the-code
  field named keeping the association-list shape. Mutation in place is
  modelled by returning the updated value next to the Boolean result the
  Python method returns.
-/

namespace SynologySRM

/-- A Python/JSON value, as far as the embedded code inspects one. -/
inductive PyVal where
  | str (s : String)
  | int (n : Int)
  | bool (b : Bool)
  | null
  | list (xs : List PyVal)
  | dict (entries : List (String × PyVal))

/-- One entry of a profile radio list (wifi_utils.py). Keys the code reads
or writes: radio_type, ssid, enable; every other key of the dict is kept
verbatim in extra. -/
structure Radio where
  radio_type : Option String
  ssid : Option String
  enable : Option Bool
  extra : List (String × String)
deriving Repr, DecidableEq

/-- One WiFi profile dict (wifi_utils.py). Keys the code reads or writes:
id, name, network_type, enable_smart_connect, radio_list; a missing
radio_list key behaves exactly like the empty list since the code only
reads it through get with default, so it is modelled as a plain list. -/
structure Profile where
  id : Option Int
  name : Option String
  network_type : Option String
  enable_smart_connect : Option Bool
  radio_list : List Radio
  extra : List (String × String)
deriving Repr, DecidableEq

/-- The fetched WiFi configuration blob: a profiles key (missing behaves
like the empty list) plus any other top-level keys. -/
structure WiFiConfig where
  profiles : List Profile
  extra : List (String × String)
deriving Repr, DecidableEq

/-- WiFiConfigManager: init stores the given configuration unchanged. -/
structure WiFiConfigManager where
  config : WiFiConfig
deriving Repr, DecidableEq

/-- Replace the first element satisfying p by its image under f, leaving
everything else in place; models an in-place mutation of the first match
found by a linear scan. -/
def updateFirst {α : Type} (p : α → Bool) (f : α → α) : List α → List α
  | [] => []
  | x :: xs => if p x then f x :: xs else x :: updateFirst p f xs

/-- The comparison profile.get("id") == profile_id of the linear scan. -/
def profileMatchFn (profile_id : Int) : Profile → Bool :=
  fun profile => decide (profile.id = some profile_id)

/-- The comparison radio.get("radio_type") == radio_type of the linear scan. -/
def radioMatchFn (radio_type : String) : Radio → Bool :=
  fun radio => decide (radio.radio_type = some radio_type)

/-- get_profiles: self.config.get("profiles", []). -/
def WiFiConfigManager.get_profiles (m : WiFiConfigManager) : List Profile :=
  m.config.profiles

/-- get_profile_by_id: linear scan for the first profile whose id key
equals the requested id. -/
def WiFiConfigManager.get_profile_by_id (m : WiFiConfigManager) (profile_id : Int) :
    Option Profile :=
  m.get_profiles.find? (profileMatchFn profile_id)

/-- get_radio_by_type: resolve the profile, then linear scan of its
radio_list for the first radio whose radio_type equals the requested one. -/
def WiFiConfigManager.get_radio_by_type (m : WiFiConfigManager) (profile_id : Int)
    (radio_type : String) : Option Radio :=
  match m.get_profile_by_id profile_id with
  | Option.none => Option.none
  | some profile => profile.radio_list.find? (radioMatchFn radio_type)

/-- Python str() of an optional string, as used in the f-string
Unknown_{radio_type} when the key is absent. -/
def pyStrOptStr : Option String → String
  | Option.none => "None"
  | some s => s

/-- Python str() of an optional int, as used in the f-string
Profile {profile_id} when the key is absent. -/
def pyStrOptInt : Option Int → String
  | Option.none => "None"
  | some n => toString n

/-- One element of the list produced by get_network_summary. The
smart-connect toggle descriptor carries no available key, hence that
field is an Option. -/
structure NetworkEntry where
  profile_id : Option Int
  radio_type : Option String
  ssid : String
  network_type : String
  profile_name : String
  switch_type : String
  enabled : Bool
  available : Option Bool
  always_available : Bool
deriving Repr, DecidableEq

/-- The descriptors emitted for one profile by get_network_summary: the
smart-connect toggle first, then one descriptor per radio in radio-list
order, with available computed from the enable_smart_connect flag. -/
def profileSummary (profile : Profile) : List NetworkEntry :=
  let profile_id := profile.id
  let profile_name := profile.name.getD ("Profile " ++ pyStrOptInt profile_id)
  let network_type := profile.network_type.getD "custom"
  let enable_smart_connect := profile.enable_smart_connect.getD false
  { profile_id := profile_id
    radio_type := some "smart_connect_toggle"
    ssid := " SmartConnect Toggle"
    network_type := network_type
    profile_name := profile_name
    switch_type := "smart_connect_toggle"
    enabled := enable_smart_connect
    available := Option.none
    always_available := true } ::
  profile.radio_list.map (fun radio =>
    let radio_type := radio.radio_type
    { profile_id := profile_id
      radio_type := radio_type
      ssid := radio.ssid.getD ("Unknown_" ++ pyStrOptStr radio_type)
      network_type := network_type
      profile_name := profile_name
      switch_type := "radio"
      enabled := radio.enable.getD false
      available := some (if radio_type = some "SmartConnect"
                         then enable_smart_connect else !enable_smart_connect)
      always_available := false })

/-- get_network_summary: for each profile, the smart-connect toggle
descriptor followed by the per-radio descriptors. -/
def WiFiConfigManager.get_network_summary (m : WiFiConfigManager) : List NetworkEntry :=
  m.get_profiles.flatMap profileSummary

/-- toggle_smart_connect: set the enable_smart_connect key of the first
matching profile; returns false and leaves everything unchanged when the
profile is not found. -/
def WiFiConfigManager.toggle_smart_connect (m : WiFiConfigManager) (profile_id : Int)
    (enable : Bool) : Bool × WiFiConfigManager :=
  match m.get_profile_by_id profile_id with
  | Option.none => (false, m)
  | some _ =>
      let newProfiles :=
        updateFirst (profileMatchFn profile_id)
          (fun profile => { profile with enable_smart_connect := some enable })
          m.config.profiles
      (true, ⟨{ m.config with profiles := newProfiles }⟩)

/-- Overwriting the enable key of a radio dict, radio["enable"] = enable. -/
def radioEnableFn (enable : Bool) : Radio → Radio :=
  fun radio => { radio with enable := some enable }

/-- The in-place mutation of a profile performed by enable_radio: the
first radio of the matching type gets its enable key overwritten. -/
def profileRadioUpdateFn (radio_type : String) (enable : Bool) : Profile → Profile :=
  fun profile =>
    { profile with radio_list :=
        updateFirst (radioMatchFn radio_type) (radioEnableFn enable) profile.radio_list }

/-- The in-place mutation of the profile list performed by enable_radio. -/
def radioEnableUpdate (profile_id : Int) (radio_type : String) (enable : Bool)
    (profiles : List Profile) : List Profile :=
  updateFirst (profileMatchFn profile_id) (profileRadioUpdateFn radio_type enable) profiles

/-- enable_radio: set the enable key of the first matching radio of the
first matching profile; returns false and leaves everything unchanged
when the radio is not found. -/
def WiFiConfigManager.enable_radio (m : WiFiConfigManager) (profile_id : Int)
    (radio_type : String) (enable : Bool) : Bool × WiFiConfigManager :=
  match m.get_radio_by_type profile_id radio_type with
  | Option.none => (false, m)
  | some _ =>
      (true,
       ⟨{ m.config with
          profiles := radioEnableUpdate profile_id radio_type enable m.config.profiles }⟩)

/-- get_config: returns the stored configuration. -/
def WiFiConfigManager.get_config (m : WiFiConfigManager) : WiFiConfig :=
  m.config

/-- is_smart_connect_enabled: the profile flag, or false when absent. -/
def WiFiConfigManager.is_smart_connect_enabled (m : WiFiConfigManager)
    (profile_id : Int) : Bool :=
  match m.get_profile_by_id profile_id with
  | Option.none => false
  | some profile => profile.enable_smart_connect.getD false

/-- is_radio_available: false when the profile is absent; otherwise the
enable_smart_connect flag for the SmartConnect type and its negation for
every other type. -/
def WiFiConfigManager.is_radio_available (m : WiFiConfigManager) (profile_id : Int)
    (radio_type : String) : Bool :=
  match m.get_profile_by_id profile_id with
  | Option.none => false
  | some profile =>
      let enable_smart_connect := profile.enable_smart_connect.getD false
      if radio_type = "SmartConnect" then enable_smart_connect
      else !enable_smart_connect

/-- is_radio_enabled: the radio enable flag, or false when absent. -/
def WiFiConfigManager.is_radio_enabled (m : WiFiConfigManager) (profile_id : Int)
    (radio_type : String) : Bool :=
  match m.get_radio_by_type profile_id radio_type with
  | Option.none => false
  | some radio => radio.enable.getD false

/-! http.py: the decoded JSON envelope and the error-dispatch part of
Http.call, from the point where the JSON body has been decoded. -/

/-- The decoded JSON response body. A field is none exactly when the
corresponding key is absent from the dict; an error key is reduced to the
numeric code found under it. -/
structure Envelope where
  success : Option Bool
  data : Option PyVal
  error : Option Int

/-- COMMON_ERROR_CODES of http.py. -/
def COMMON_ERROR_CODES : List (Int × String) :=
  [(100, "Unknown error"),
   (101, "No parameter of API, method or version"),
   (102, "The requested API does not exist"),
   (103, "The requested method does not exist"),
   (104, "The requested version does not support the functionality"),
   (105, "The logged in session does not have permission"),
   (106, "Session timeout"),
   (107, "Session interrupted by duplicate login"),
   (117, "Need manager rights for operation")]

/-- Lookup of a code in an error table (Python dict keyed by int). -/
def lookupCode (code : Int) (table : List (Int × String)) : Option String :=
  (table.find? (fun e => decide (e.1 = code))).map (fun e => e.2)

/-- Http._get_common_error_message. -/
def get_common_error_message (code : Int) : String :=
  (lookupCode code COMMON_ERROR_CODES).getD
    "Unknown common error, please check the documentation"

/-- How one processed envelope ends: a typed failure, a request to
re-login and retry, or a returned payload. keyError models the Python
KeyError raised by a direct subscript of a missing key. -/
inductive ProcessOutcome where
  | malformed
  | keyError
  | commonError (code : Int) (message : String)
  | apiError (code : Int) (message : String)
  | needRetry (code : Int)
  | okInline (b : Bool)
  | okData (v : PyVal)

/-- The branch of Http.call past the malformed-envelope guard: error-code
dispatch and success payload extraction. -/
def dispatch (d : Envelope) (restricted retried : Bool)
    (errors : List (Int × String)) : ProcessOutcome :=
  match d.success with
  | Option.none => ProcessOutcome.keyError
  | some s =>
      if s = false then
        match d.error with
        | Option.none => ProcessOutcome.keyError
        | some code =>
            if 100 ≤ code ∧ code < 200 then
              if code = 106 ∨ code = 107 then
                if restricted = false ∨ retried = true then
                  ProcessOutcome.commonError code (get_common_error_message code)
                else
                  ProcessOutcome.needRetry code
              else
                ProcessOutcome.commonError code (get_common_error_message code)
            else
              match lookupCode code errors with
              | some message => ProcessOutcome.apiError code message
              | Option.none =>
                  ProcessOutcome.apiError code
                    "Unknown API error, please check the documentation"
      else
        match d.data with
        | Option.none => ProcessOutcome.okInline s
        | some v => ProcessOutcome.okData v

/-- Http.call from the decoded JSON body on: the malformed-envelope guard
followed by the dispatch above. -/
def processResponse (d : Envelope) (restricted retried : Bool)
    (errors : List (Int × String)) : ProcessOutcome :=
  if d.success.isNone && (d.data.isNone || d.error.isNone) then
    ProcessOutcome.malformed
  else
    dispatch d restricted retried errors

/-- The bounded retry recursion of Http.call, unrolled: first is the
envelope of the first attempt, second the envelope the server would give
the retried identical call. The Nat counts how many re-logins were
performed; the retry is issued with restricted true and retried true,
the first attempt with retried false. -/
def runCall (first second : Envelope) (restricted : Bool)
    (errors : List (Int × String)) : Nat × ProcessOutcome :=
  match processResponse first restricted false errors with
  | ProcessOutcome.needRetry _ => (1, processResponse second true true errors)
  | o => (0, o)

/-! api/wifi.py: ApiWifi.set_network_setting argument validation. -/

/-- One Transport call as issued by an API namespace method. The code
serialises the profiles payload with json.dumps before sending; the model
keeps the structured value. -/
structure HttpCall where
  endpoint : String
  api : String
  method : String
  version : Int
  params : List (String × PyVal)

/-- Dict key lookup for PyVal dict entries. -/
def lookupKey (k : String) (entries : List (String × PyVal)) : Option PyVal :=
  (entries.find? (fun e => decide (e.1 = k))).map (fun e => e.2)

/-- ApiWifi.set_network_setting: a dict carrying a profiles key sends the
value under that key, a list sends the list itself, anything else raises
ValueError before any Transport call. -/
def set_network_setting (profiles : PyVal) : Except String HttpCall :=
  match profiles with
  | PyVal.dict entries =>
      match lookupKey "profiles" entries with
      | some profiles_data =>
          Except.ok
            { endpoint := "entry.cgi"
              api := "SYNO.Wifi.Network.Setting"
              method := "set"
              version := 1
              params := [("profiles", profiles_data)] }
      | Option.none =>
          Except.error "Profiles must be a list or dict with \x27profiles\x27 key"
  | PyVal.list xs =>
      Except.ok
        { endpoint := "entry.cgi"
          api := "SYNO.Wifi.Network.Setting"
          method := "set"
          version := 1
          params := [("profiles", PyVal.list xs)] }
  | _ => Except.error "Profiles must be a list or dict with \x27profiles\x27 key"

/-! Helper lemmas about updateFirst and find?. -/

theorem updateFirst_of_find?_none {α : Type} {p : α → Bool} (f : α → α) :
    ∀ {l : List α}, l.find? p = Option.none → updateFirst p f l = l := by
  intro l
  induction l with
  | nil => intro _; rfl
  | cons x xs ih =>
      intro h
      by_cases hx : p x = true
      · rw [List.find?_cons_of_pos _ hx] at h
        exact absurd h (by simp)
      · have hx' : p x = false := by simpa using hx
        rw [List.find?_cons_of_neg _ hx] at h
        simp [updateFirst, hx', ih h]

theorem updateFirst_eq_set {α : Type} {p : α → Bool} (f : α → α) :
    ∀ (l : List α) (a : α), l.find? p = some a →
      ∃ i, ∃ hi : i < l.length, l.get ⟨i, hi⟩ = a ∧ p a = true ∧
        updateFirst p f l = l.set i (f a) := by
  intro l
  induction l with
  | nil => intro a h; simp [List.find?] at h
  | cons x xs ih =>
      intro a h
      by_cases hx : p x = true
      · rw [List.find?_cons_of_pos _ hx] at h
        have hax : x = a := by simpa using h
        subst hax
        refine ⟨0, by simp, rfl, hx, ?_⟩
        simp [updateFirst, hx]
      · have hx' : p x = false := by simpa using hx
        rw [List.find?_cons_of_neg _ hx] at h
        obtain ⟨i, hi, hget, hpa, hupd⟩ := ih a h
        refine ⟨i + 1, by simpa using Nat.succ_lt_succ hi, by simpa using hget, hpa, ?_⟩
        simp [updateFirst, hx', hupd, List.set]

theorem find?_updateFirst {α : Type} {p : α → Bool} {f : α → α}
    (hf : ∀ x, p (f x) = p x) :
    ∀ l : List α, (updateFirst p f l).find? p = (l.find? p).map f := by
  intro l
  induction l with
  | nil => rfl
  | cons x xs ih =>
      by_cases hx : p x = true
      · have hfx : p (f x) = true := by rw [hf]; exact hx
        have hu : updateFirst p f (x :: xs) = f x :: xs := by simp [updateFirst, hx]
        rw [List.find?_cons_of_pos _ hx, hu, List.find?_cons_of_pos _ hfx]
        rfl
      · have hx' : p x = false := by simpa using hx
        have hu : updateFirst p f (x :: xs) = x :: updateFirst p f xs := by
          simp [updateFirst, hx']
        rw [List.find?_cons_of_neg _ hx, hu, List.find?_cons_of_neg _ hx]
        exact ih

theorem updateFirst_idem {α : Type} {p : α → Bool} {f : α → α}
    (hf : ∀ x, p (f x) = p x) (hff : ∀ x, f (f x) = f x) :
    ∀ l : List α, updateFirst p f (updateFirst p f l) = updateFirst p f l := by
  intro l
  induction l with
  | nil => rfl
  | cons x xs ih =>
      by_cases hx : p x = true
      · have hfx : p (f x) = true := by rw [hf]; exact hx
        simp [updateFirst, hx, hfx, hff]
      · have hx' : p x = false := by simpa using hx
        simp [updateFirst, hx', ih]

/-! Claim theorems. -/

/-- C4: constructing the model from a fetched snapshot and reading the
configuration back with no mutation in between yields the snapshot
unchanged. -/
theorem c4_build_get_config_roundtrip (snapshot : WiFiConfig) :
    (WiFiConfigManager.mk snapshot).get_config = snapshot := rfl

/-- C2: when the profile exists, SmartConnect availability equals its
enable_smart_connect flag and the availability of each of the three bands
equals the negation of the flag; when no profile with the id exists,
availability is false for every radio type. -/
theorem c2_smart_connect_exclusion (m : WiFiConfigManager) (profile_id : Int) :
    (∀ profile, m.get_profile_by_id profile_id = some profile →
      m.is_radio_available profile_id "SmartConnect"
          = profile.enable_smart_connect.getD false ∧
      m.is_radio_available profile_id "2.4G"
          = !(profile.enable_smart_connect.getD false) ∧
      m.is_radio_available profile_id "5G-1"
          = !(profile.enable_smart_connect.getD false) ∧
      m.is_radio_available profile_id "5G-2"
          = !(profile.enable_smart_connect.getD false)) ∧
    (m.get_profile_by_id profile_id = Option.none →
      ∀ radio_type, m.is_radio_available profile_id radio_type = false) := by
  constructor
  · intro profile hp
    refine ⟨?_, ?_, ?_, ?_⟩ <;> simp [WiFiConfigManager.is_radio_available, hp]
  · intro hp radio_type
    simp [WiFiConfigManager.is_radio_available, hp]

/-- C2 witness: a concrete configuration exercising both a profile with
the flag set and an absent profile id. -/
theorem c2_smart_connect_exclusion_witness :
    WiFiConfigManager.is_radio_available
        ⟨⟨[⟨some 1, some "Home", some "primary", some true, [], []⟩], []⟩⟩ 1 "SmartConnect"
      = true ∧
    WiFiConfigManager.is_radio_available
        ⟨⟨[⟨some 1, some "Home", some "primary", some true, [], []⟩], []⟩⟩ 1 "2.4G"
      = false ∧
    WiFiConfigManager.is_radio_available
        ⟨⟨[⟨some 1, some "Home", some "primary", some true, [], []⟩], []⟩⟩ 2 "2.4G"
      = false := by
  refine ⟨?_, ?_, ?_⟩
  · exact ((c2_smart_connect_exclusion
      ⟨⟨[⟨some 1, some "Home", some "primary", some true, [], []⟩], []⟩⟩ 1).1
      ⟨some 1, some "Home", some "primary", some true, [], []⟩ rfl).1.trans rfl
  · exact ((c2_smart_connect_exclusion
      ⟨⟨[⟨some 1, some "Home", some "primary", some true, [], []⟩], []⟩⟩ 1).1
      ⟨some 1, some "Home", some "primary", some true, [], []⟩ rfl).2.1.trans rfl
  · exact (c2_smart_connect_exclusion
      ⟨⟨[⟨some 1, some "Home", some "primary", some true, [], []⟩], []⟩⟩ 2).2
      (by decide) "2.4G"

/-- C10: for a present profile, availability for any radio type other
than SmartConnect is the negation of the enable_smart_connect flag, with
no hypothesis about the radio list at all: in particular it holds for
types that have no radio entry and for arbitrary unknown type strings. -/
theorem c10_availability_ignores_radio_list (m : WiFiConfigManager)
    (profile_id : Int) (profile : Profile) (radio_type : String)
    (hp : m.get_profile_by_id profile_id = some profile)
    (ht : radio_type ≠ "SmartConnect") :
    m.is_radio_available profile_id radio_type
      = !(profile.enable_smart_connect.getD false) := by
  simp [WiFiConfigManager.is_radio_available, hp, ht]

/-- C10 witness: a profile whose radio list is empty still reports the
band and an arbitrary unknown type as available. -/
theorem c10_availability_ignores_radio_list_witness :
    WiFiConfigManager.is_radio_available
        ⟨⟨[⟨some 7, Option.none, Option.none, some false, [], []⟩], []⟩⟩ 7 "no-such-band"
      = true := by
  exact (c10_availability_ignores_radio_list
    ⟨⟨[⟨some 7, Option.none, Option.none, some false, [], []⟩], []⟩⟩ 7
    ⟨some 7, Option.none, Option.none, some false, [], []⟩ "no-such-band"
    rfl (by decide)).trans rfl

/-- C8: for a profile id not present in the configuration, every query
returns its absence value (none or false) and every mutation returns
false leaving the manager unchanged; nothing raises in the model. -/
theorem c8_unknown_profile_id_safe (m : WiFiConfigManager) (profile_id : Int)
    (h : ∀ profile ∈ m.config.profiles, profile.id ≠ some profile_id) :
    m.get_profile_by_id profile_id = Option.none ∧
    (∀ radio_type, m.get_radio_by_type profile_id radio_type = Option.none) ∧
    (∀ radio_type, m.is_radio_available profile_id radio_type = false) ∧
    (∀ radio_type, m.is_radio_enabled profile_id radio_type = false) ∧
    m.is_smart_connect_enabled profile_id = false ∧
    (∀ radio_type enable, m.enable_radio profile_id radio_type enable = (false, m)) ∧
    (∀ enable, m.toggle_smart_connect profile_id enable = (false, m)) := by
  have hnone : m.get_profile_by_id profile_id = Option.none := by
    rw [WiFiConfigManager.get_profile_by_id, List.find?_eq_none]
    intro profile hmem
    simpa [profileMatchFn] using h profile hmem
  have hrnone : ∀ radio_type, m.get_radio_by_type profile_id radio_type = Option.none := by
    intro radio_type
    simp [WiFiConfigManager.get_radio_by_type, hnone]
  refine ⟨hnone, hrnone, ?_, ?_, ?_, ?_, ?_⟩
  · intro radio_type
    simp [WiFiConfigManager.is_radio_available, hnone]
  · intro radio_type
    simp [WiFiConfigManager.is_radio_enabled, hrnone]
  · simp [WiFiConfigManager.is_smart_connect_enabled, hnone]
  · intro radio_type enable
    simp [WiFiConfigManager.enable_radio, hrnone]
  · intro enable
    simp [WiFiConfigManager.toggle_smart_connect, hnone]

/-- C8 witness: a concrete configuration and an absent id. -/
theorem c8_unknown_profile_id_safe_witness :
    WiFiConfigManager.get_profile_by_id
        ⟨⟨[⟨some 1, some "Home", Option.none, some false,
            [⟨some "2.4G", some "Home", some true, []⟩], []⟩], []⟩⟩ 99
      = Option.none ∧
    WiFiConfigManager.enable_radio
        ⟨⟨[⟨some 1, some "Home", Option.none, some false,
            [⟨some "2.4G", some "Home", some true, []⟩], []⟩], []⟩⟩ 99 "2.4G" true
      = (false, ⟨⟨[⟨some 1, some "Home", Option.none, some false,
            [⟨some "2.4G", some "Home", some true, []⟩], []⟩], []⟩⟩) := by
  refine ⟨?_, ?_⟩
  · exact (c8_unknown_profile_id_safe
      ⟨⟨[⟨some 1, some "Home", Option.none, some false,
          [⟨some "2.4G", some "Home", some true, []⟩], []⟩], []⟩⟩ 99 (by decide)).1
  · exact (c8_unknown_profile_id_safe
      ⟨⟨[⟨some 1, some "Home", Option.none, some false,
          [⟨some "2.4G", some "Home", some true, []⟩], []⟩], []⟩⟩ 99
      (by decide)).2.2.2.2.2.1 "2.4G" true

/-! Helper lemmas for the network summary shape. -/

theorem flatMap_profileSummary_length (l : List Profile) :
    (l.flatMap profileSummary).length
      = l.length + (l.map fun profile => profile.radio_list.length).sum := by
  induction l with
  | nil => rfl
  | cons profile l ih =>
      simp only [List.flatMap_cons, List.length_append, ih, List.map_cons, List.sum_cons]
      simp [profileSummary]
      omega

theorem flatMap_profileSummary_keys (l : List Profile) :
    (l.flatMap profileSummary).map
        (fun e => (e.profile_id, e.radio_type, e.switch_type))
      = l.flatMap (fun profile =>
          ((profile.id, some "smart_connect_toggle", "smart_connect_toggle")
              : Option Int × Option String × String) ::
            profile.radio_list.map
              (fun radio => (profile.id, radio.radio_type, "radio"))) := by
  induction l with
  | nil => rfl
  | cons profile l ih =>
      simp only [List.flatMap_cons, List.map_append, ih]
      simp [profileSummary, List.map_map, Function.comp]

/-- C3: the summary has one descriptor per profile plus one per radio,
in profile order with the smart-connect toggle descriptor first and then
one descriptor per radio in radio-list order; determinism is inherent in
get_network_summary being a function of the configuration. -/
theorem c3_summary_shape (m : WiFiConfigManager) :
    m.get_network_summary.length
      = m.get_profiles.length
          + (m.get_profiles.map fun profile => profile.radio_list.length).sum ∧
    m.get_network_summary.map
        (fun e => (e.profile_id, e.radio_type, e.switch_type))
      = m.get_profiles.flatMap (fun profile =>
          ((profile.id, some "smart_connect_toggle", "smart_connect_toggle")
              : Option Int × Option String × String) ::
            profile.radio_list.map
              (fun radio => (profile.id, radio.radio_type, "radio"))) := by
  exact ⟨flatMap_profileSummary_length m.get_profiles,
         flatMap_profileSummary_keys m.get_profiles⟩

/-! Helper lemma: nothing past the malformed-envelope guard yields the
malformed failure. -/

theorem dispatch_ne_malformed (d : Envelope) (restricted retried : Bool)
    (errors : List (Int × String)) :
    dispatch d restricted retried errors ≠ ProcessOutcome.malformed := by
  obtain ⟨s, da, e⟩ := d
  cases s with
  | none => simp [dispatch]
  | some b =>
      cases b with
      | true => cases da <;> simp [dispatch]
      | false =>
          cases e with
          | none => simp [dispatch]
          | some code =>
              by_cases h1 : 100 ≤ code ∧ code < 200
              · by_cases h2 : code = 106 ∨ code = 107
                · by_cases h3 : restricted = false ∨ retried = true
                  · simp [dispatch, h1, h2, h3]
                  · simp [dispatch, h1, h2, h3]
                · simp [dispatch, h1, h2]
              · cases hlc : lookupCode code errors <;> simp [dispatch, h1, hlc]

/-- C5: the call raises the malformed-response failure exactly when the
envelope is missing the success key and missing the data/error structure
(at least one of the data and error keys absent); otherwise the envelope
is handled by the success/error dispatch, which never yields the
malformed failure. -/
theorem c5_malformed_iff (d : Envelope) (restricted retried : Bool)
    (errors : List (Int × String)) :
    processResponse d restricted retried errors = ProcessOutcome.malformed ↔
      d.success = Option.none ∧ (d.data = Option.none ∨ d.error = Option.none) := by
  rw [processResponse]
  by_cases h : (d.success.isNone && (d.data.isNone || d.error.isNone)) = true
  · rw [if_pos h]
    simp only [Bool.and_eq_true, Bool.or_eq_true, Option.isNone_iff_eq_none] at h
    exact ⟨fun _ => h, fun _ => rfl⟩
  · rw [if_neg h]
    constructor
    · intro hm
      exact absurd hm (dispatch_ne_malformed d restricted retried errors)
    · intro hc
      exfalso
      apply h
      simp only [Bool.and_eq_true, Bool.or_eq_true, Option.isNone_iff_eq_none]
      exact hc

/-- C1: a restricted call answered with a session-expiry code 106/107 on
the first attempt triggers exactly one re-login (the Nat component) and
one retry of the identical call with the retried flag set; a second
106/107 on the retry fails with the common error carrying that code and
its message; an unrestricted call answered 106/107 fails at once with the
common error and performs no login and no retry. -/
theorem c1_session_retry (first second : Envelope) (errors : List (Int × String))
    (code1 code2 : Int)
    (h1 : first.success = some false) (h2 : first.error = some code1)
    (hc1 : code1 = 106 ∨ code1 = 107)
    (h3 : second.success = some false) (h4 : second.error = some code2)
    (hc2 : code2 = 106 ∨ code2 = 107) :
    processResponse first true false errors = ProcessOutcome.needRetry code1 ∧
    (∀ s : Envelope,
      runCall first s true errors = (1, processResponse s true true errors)) ∧
    runCall first second true errors
      = (1, ProcessOutcome.commonError code2 (get_common_error_message code2)) ∧
    runCall first second false errors
      = (0, ProcessOutcome.commonError code1 (get_common_error_message code1)) := by
  have hr1 : 100 ≤ code1 ∧ code1 < 200 := by rcases hc1 with rfl | rfl <;> omega
  have hr2 : 100 ≤ code2 ∧ code2 < 200 := by rcases hc2 with rfl | rfl <;> omega
  have key1 : processResponse first true false errors = ProcessOutcome.needRetry code1 := by
    simp [processResponse, dispatch, h1, h2, hr1.1, hr1.2, hc1]
  have key2 : processResponse second true true errors
      = ProcessOutcome.commonError code2 (get_common_error_message code2) := by
    simp [processResponse, dispatch, h3, h4, hr2.1, hr2.2, hc2]
  have key3 : processResponse first false false errors
      = ProcessOutcome.commonError code1 (get_common_error_message code1) := by
    simp [processResponse, dispatch, h1, h2, hr1.1, hr1.2, hc1]
  refine ⟨key1, ?_, ?_, ?_⟩
  · intro s
    simp only [runCall, key1]
  · simp only [runCall, key1, key2]
  · simp only [runCall, key3]

/-- C1 witness: concrete envelopes carrying code 106 on both attempts. -/
theorem c1_session_retry_witness :
    runCall ⟨some false, Option.none, some 106⟩ ⟨some false, Option.none, some 106⟩
        true []
      = (1, ProcessOutcome.commonError 106 (get_common_error_message 106)) ∧
    runCall ⟨some false, Option.none, some 106⟩ ⟨some false, Option.none, some 106⟩
        false []
      = (0, ProcessOutcome.commonError 106 (get_common_error_message 106)) := by
  refine ⟨?_, ?_⟩
  · exact (c1_session_retry ⟨some false, Option.none, some 106⟩
      ⟨some false, Option.none, some 106⟩ [] 106 106 rfl rfl (Or.inl rfl)
      rfl rfl (Or.inl rfl)).2.2.1
  · exact (c1_session_retry ⟨some false, Option.none, some 106⟩
      ⟨some false, Option.none, some 106⟩ [] 106 106 rfl rfl (Or.inl rfl)
      rfl rfl (Or.inl rfl)).2.2.2

/-- C9: a dict argument carrying a profiles key sends the value under
that key, a list argument sends the list itself, and any other argument,
a dict without the profiles key included, yields the ValueError and no
Transport call. -/
theorem c9_set_network_setting_cases (arg : PyVal) :
    (∀ entries v, arg = PyVal.dict entries →
      lookupKey "profiles" entries = some v →
      set_network_setting arg = Except.ok
        { endpoint := "entry.cgi", api := "SYNO.Wifi.Network.Setting",
          method := "set", version := 1, params := [("profiles", v)] }) ∧
    (∀ xs, arg = PyVal.list xs →
      set_network_setting arg = Except.ok
        { endpoint := "entry.cgi", api := "SYNO.Wifi.Network.Setting",
          method := "set", version := 1, params := [("profiles", PyVal.list xs)] }) ∧
    ((∀ entries, arg = PyVal.dict entries →
        lookupKey "profiles" entries = Option.none) →
      (∀ xs, arg ≠ PyVal.list xs) →
      set_network_setting arg
        = Except.error "Profiles must be a list or dict with \x27profiles\x27 key") := by
  refine ⟨?_, ?_, ?_⟩
  · rintro entries v rfl hv
    simp [set_network_setting, hv]
  · rintro xs rfl
    rfl
  · intro hd hl
    cases arg with
    | dict entries => simp [set_network_setting, hd entries rfl]
    | list xs => exact absurd rfl (hl xs)
    | str s => rfl
    | int n => rfl
    | bool b => rfl
    | null => rfl

/-- C9 witness: a dict with a profiles key, and an int argument. -/
theorem c9_set_network_setting_cases_witness :
    set_network_setting (PyVal.dict [("profiles", PyVal.list [])])
      = Except.ok
        { endpoint := "entry.cgi", api := "SYNO.Wifi.Network.Setting",
          method := "set", version := 1, params := [("profiles", PyVal.list [])] } ∧
    set_network_setting (PyVal.int 3)
      = Except.error "Profiles must be a list or dict with \x27profiles\x27 key" := by
  refine ⟨?_, ?_⟩
  · exact (c9_set_network_setting_cases (PyVal.dict [("profiles", PyVal.list [])])).1
      [("profiles", PyVal.list [])] (PyVal.list []) rfl rfl
  · exact (c9_set_network_setting_cases (PyVal.int 3)).2.2
      (fun entries h => by cases h) (fun xs h => by cases h)

/-- C6: enable_radio touches at most the enable key of the first radio
matching the profile id and radio type: the updated configuration is the
original with exactly that one radio replaced by a copy whose enable key
is overwritten, so every other key of that radio, every other radio and
every other profile are untouched; when no matching radio exists the
whole configuration is returned unchanged with result false. -/
theorem c6_enable_radio_frame (m : WiFiConfigManager) (profile_id : Int)
    (radio_type : String) (enable : Bool) :
    (m.get_radio_by_type profile_id radio_type = Option.none →
      m.enable_radio profile_id radio_type enable = (false, m)) ∧
    (∀ r, m.get_radio_by_type profile_id radio_type = some r →
      (m.enable_radio profile_id radio_type enable).1 = true ∧
      ∃ p rd i j, ∃ hi : i < m.config.profiles.length, ∃ hj : j < p.radio_list.length,
        m.config.profiles.get ⟨i, hi⟩ = p ∧
        p.radio_list.get ⟨j, hj⟩ = rd ∧
        p.id = some profile_id ∧
        rd.radio_type = some radio_type ∧
        (m.enable_radio profile_id radio_type enable).2
          = ⟨{ m.config with profiles := m.config.profiles.set i { p with radio_list := p.radio_list.set j { rd with enable := some enable } } }⟩) := by
  constructor
  · intro h
    simp [WiFiConfigManager.enable_radio, h]
  · intro r h
    have h0 := h
    rw [WiFiConfigManager.get_radio_by_type] at h0
    cases hp : m.get_profile_by_id profile_id with
    | none =>
        rw [hp] at h0
        exact absurd h0 (by simp)
    | some p =>
        rw [hp] at h0
        have hpf : m.config.profiles.find? (profileMatchFn profile_id) = some p := hp
        obtain ⟨i, hi, hgetp, hpp, hupdP⟩ :=
          updateFirst_eq_set (profileRadioUpdateFn radio_type enable)
            m.config.profiles p hpf
        obtain ⟨j, hj, hgetr, hpr, hupdR⟩ :=
          updateFirst_eq_set (radioEnableFn enable) p.radio_list r h0
        have e1 : m.enable_radio profile_id radio_type enable
            = (true, ⟨{ m.config with profiles := radioEnableUpdate profile_id radio_type enable m.config.profiles }⟩) := by
          simp only [WiFiConfigManager.enable_radio, h]
        have hprof : profileRadioUpdateFn radio_type enable p
            = { p with radio_list := p.radio_list.set j { r with enable := some enable } } := by
          simp only [profileRadioUpdateFn]
          rw [hupdR]
          rfl
        have hmain : radioEnableUpdate profile_id radio_type enable m.config.profiles
            = m.config.profiles.set i { p with radio_list := p.radio_list.set j { r with enable := some enable } } := by
          rw [radioEnableUpdate, hupdP, hprof]
        refine ⟨by rw [e1], p, r, i, j, hi, hj, hgetp, hgetr,
          of_decide_eq_true hpp, of_decide_eq_true hpr, ?_⟩
        rw [e1, hmain]

/-- C6 witness: a concrete configuration exercising the absent-radio
branch and the mutation branch. -/
theorem c6_enable_radio_frame_witness :
    WiFiConfigManager.enable_radio
        ⟨⟨[⟨some 1, some "Home", Option.none, some false, [⟨some "2.4G", some "Home", some false, []⟩], []⟩], []⟩⟩ 1 "5G-1" true
      = (false, ⟨⟨[⟨some 1, some "Home", Option.none, some false, [⟨some "2.4G", some "Home", some false, []⟩], []⟩], []⟩⟩) ∧
    (WiFiConfigManager.enable_radio
        ⟨⟨[⟨some 1, some "Home", Option.none, some false, [⟨some "2.4G", some "Home", some false, []⟩], []⟩], []⟩⟩ 1 "2.4G" true).1
      = true := by
  refine ⟨?_, ?_⟩
  · exact (c6_enable_radio_frame
      ⟨⟨[⟨some 1, some "Home", Option.none, some false, [⟨some "2.4G", some "Home", some false, []⟩], []⟩], []⟩⟩ 1 "5G-1" true).1 rfl
  · exact ((c6_enable_radio_frame
      ⟨⟨[⟨some 1, some "Home", Option.none, some false, [⟨some "2.4G", some "Home", some false, []⟩], []⟩], []⟩⟩ 1 "2.4G" true).2
      ⟨some "2.4G", some "Home", some false, []⟩ rfl).1

/-- C7: when the radio exists, enabling it twice returns true both times,
the second call leaves the configuration exactly as the first call left
it, and afterwards is_radio_enabled reports true. -/
theorem c7_enable_radio_true_idempotent (m : WiFiConfigManager) (profile_id : Int)
    (radio_type : String) (r : Radio)
    (h : m.get_radio_by_type profile_id radio_type = some r) :
    (m.enable_radio profile_id radio_type true).1 = true ∧
    ((m.enable_radio profile_id radio_type true).2.enable_radio profile_id radio_type true).1 = true ∧
    ((m.enable_radio profile_id radio_type true).2.enable_radio profile_id radio_type true).2
      = (m.enable_radio profile_id radio_type true).2 ∧
    ((m.enable_radio profile_id radio_type true).2.enable_radio profile_id radio_type true).2.is_radio_enabled profile_id radio_type
      = true := by
  have h0 := h
  rw [WiFiConfigManager.get_radio_by_type] at h0
  cases hp : m.get_profile_by_id profile_id with
  | none =>
      rw [hp] at h0
      exact absurd h0 (by simp)
  | some p =>
      rw [hp] at h0
      have h1r : p.radio_list.find? (radioMatchFn radio_type) = some r := h0
      have hpf : m.config.profiles.find? (profileMatchFn profile_id) = some p := hp
      have hfP : ∀ x : Profile,
          profileMatchFn profile_id (profileRadioUpdateFn radio_type true x)
            = profileMatchFn profile_id x := fun _ => rfl
      have hfR : ∀ x : Radio,
          radioMatchFn radio_type (radioEnableFn true x) = radioMatchFn radio_type x :=
        fun _ => rfl
      have e1 : m.enable_radio profile_id radio_type true
          = (true, ⟨{ m.config with profiles := radioEnableUpdate profile_id radio_type true m.config.profiles }⟩) := by
        simp only [WiFiConfigManager.enable_radio, h]
      have hp1 : (⟨{ m.config with profiles := radioEnableUpdate profile_id radio_type true m.config.profiles }⟩ : WiFiConfigManager).get_profile_by_id profile_id
          = some (profileRadioUpdateFn radio_type true p) := by
        show (radioEnableUpdate profile_id radio_type true m.config.profiles).find? (profileMatchFn profile_id) = _
        rw [radioEnableUpdate, find?_updateFirst hfP, hpf]
        rfl
      have hr1 : (⟨{ m.config with profiles := radioEnableUpdate profile_id radio_type true m.config.profiles }⟩ : WiFiConfigManager).get_radio_by_type profile_id radio_type
          = some (radioEnableFn true r) := by
        rw [WiFiConfigManager.get_radio_by_type, hp1]
        show (updateFirst (radioMatchFn radio_type) (radioEnableFn true) p.radio_list).find? (radioMatchFn radio_type) = _
        rw [find?_updateFirst hfR, h1r]
        rfl
      have hffR : ∀ x : Radio, radioEnableFn true (radioEnableFn true x) = radioEnableFn true x :=
        fun _ => rfl
      have hffP : ∀ x : Profile,
          profileRadioUpdateFn radio_type true (profileRadioUpdateFn radio_type true x)
            = profileRadioUpdateFn radio_type true x := by
        intro x
        simp only [profileRadioUpdateFn]
        rw [updateFirst_idem hfR hffR]
      have hidem : radioEnableUpdate profile_id radio_type true (radioEnableUpdate profile_id radio_type true m.config.profiles)
          = radioEnableUpdate profile_id radio_type true m.config.profiles := by
        simp only [radioEnableUpdate]
        exact updateFirst_idem hfP hffP m.config.profiles
      have e2 : (⟨{ m.config with profiles := radioEnableUpdate profile_id radio_type true m.config.profiles }⟩ : WiFiConfigManager).enable_radio profile_id radio_type true
          = (true, ⟨{ m.config with profiles := radioEnableUpdate profile_id radio_type true m.config.profiles }⟩) := by
        simp only [WiFiConfigManager.enable_radio, hr1]
        rw [hidem]
      have e1b : (m.enable_radio profile_id radio_type true).2
          = ⟨{ m.config with profiles := radioEnableUpdate profile_id radio_type true m.config.profiles }⟩ := by
        rw [e1]
      have e2a : ((⟨{ m.config with profiles := radioEnableUpdate profile_id radio_type true m.config.profiles }⟩ : WiFiConfigManager).enable_radio profile_id radio_type true).1 = true := by
        rw [e2]
      have e2b : ((⟨{ m.config with profiles := radioEnableUpdate profile_id radio_type true m.config.profiles }⟩ : WiFiConfigManager).enable_radio profile_id radio_type true).2
          = ⟨{ m.config with profiles := radioEnableUpdate profile_id radio_type true m.config.profiles }⟩ := by
        rw [e2]
      refine ⟨by rw [e1], ?_, ?_, ?_⟩
      · rw [e1b, e2a]
      · rw [e1b, e2b]
      · rw [e1b, e2b]
        simp [WiFiConfigManager.is_radio_enabled, hr1, radioEnableFn]

/-- C7 witness: a concrete configuration whose 2.4G radio exists. -/
theorem c7_enable_radio_true_idempotent_witness :
    (WiFiConfigManager.enable_radio
        ⟨⟨[⟨some 1, Option.none, Option.none, some false, [⟨some "2.4G", some "Home", some false, []⟩], []⟩], []⟩⟩ 1 "2.4G" true).1
      = true ∧
    ((WiFiConfigManager.enable_radio
        ⟨⟨[⟨some 1, Option.none, Option.none, some false, [⟨some "2.4G", some "Home", some false, []⟩], []⟩], []⟩⟩ 1 "2.4G" true).2.enable_radio 1 "2.4G" true).2.is_radio_enabled 1 "2.4G"
      = true := by
  refine ⟨?_, ?_⟩
  · exact (c7_enable_radio_true_idempotent
      ⟨⟨[⟨some 1, Option.none, Option.none, some false, [⟨some "2.4G", some "Home", some false, []⟩], []⟩], []⟩⟩ 1 "2.4G"
      ⟨some "2.4G", some "Home", some false, []⟩ rfl).1
  · exact (c7_enable_radio_true_idempotent
      ⟨⟨[⟨some 1, Option.none, Option.none, some false, [⟨some "2.4G", some "Home", some false, []⟩], []⟩], []⟩⟩ 1 "2.4G"
      ⟨some "2.4G", some "Home", some false, []⟩ rfl).2.2.2

end SynologySRM
